import Mathlib

/-
Verification of the BnB SmartChoice client decision-support code
(frontend/src/contexts/DSSContext.js, frontend/src/components/SmartFilterModal.js)
and of the seeded influence-diagram configuration (sql schema + seed data
shipped alongside the frontend sources).

Numbers are modelled as rationals (`ℚ`) where the JavaScript code does plain
arithmetic, and as reals (`ℝ`) where it calls trigonometric functions
(the Haversine distance helper).  A JavaScript number field that may be
`undefined`/`null` is modelled as `Option ℚ`; the JavaScript truthiness test
on a number (`x || d`, `!x`) treats `0` as falsy, which is modelled
explicitly.
-/

namespace BnB

/-! ## Client preference state (DSSContext.js) -/

/-- The five soft-filter preference values held in React state
(`useState` initialiser in `DSSProvider`). -/
structure Preferences where
  price_sensitivity : ℚ
  comfort_priority : ℚ
  distance_tolerance : ℚ
  view_importance : ℚ
  cleanliness_priority : ℚ
deriving DecidableEq

/-- The initial preference state: every slider starts at 5
(`useState` default in `DSSProvider`, also restored by `resetPreferences`). -/
def defaultPreferences : Preferences :=
  { price_sensitivity := 5
    comfort_priority := 5
    distance_tolerance := 5
    view_importance := 5
    cleanliness_priority := 5 }

/-- Keys of the preference record. -/
inductive PrefKey
  | price_sensitivity
  | comfort_priority
  | distance_tolerance
  | view_importance
  | cleanliness_priority
deriving DecidableEq

/-- Read one preference field. -/
def Preferences.get (p : Preferences) : PrefKey → ℚ
  | .price_sensitivity => p.price_sensitivity
  | .comfort_priority => p.comfort_priority
  | .distance_tolerance => p.distance_tolerance
  | .view_importance => p.view_importance
  | .cleanliness_priority => p.cleanliness_priority

/-- The state update performed by `updatePreference(key, value)`. -/
def Preferences.set (p : Preferences) : PrefKey → ℚ → Preferences
  | .price_sensitivity, v => { p with price_sensitivity := v }
  | .comfort_priority, v => { p with comfort_priority := v }
  | .distance_tolerance, v => { p with distance_tolerance := v }
  | .view_importance, v => { p with view_importance := v }
  | .cleanliness_priority, v => { p with cleanliness_priority := v }

/-- Preference states reachable through the preference-slider UI
(`SmartFilterModal.js`): the state starts at `defaultPreferences`; each
slider change calls `updatePreference` with a Chakra `Slider` value
constrained to `min={0} max={1}` (`step={0.1}`), and `resetPreferences`
restores the default state. -/
inductive PrefReachable : Preferences → Prop
  | init : PrefReachable defaultPreferences
  | update {p : Preferences} (k : PrefKey) (v : ℚ) :
      PrefReachable p → 0 ≤ v → v ≤ 1 → PrefReachable (p.set k v)
  | reset {p : Preferences} : PrefReachable p → PrefReachable defaultPreferences

/-! ## The recommend request payload (fetchRecommendations) -/

/-- Search parameters relevant to the payload (React state `searchParams`). -/
structure SearchParams where
  lat : ℚ
  lng : ℚ
deriving DecidableEq

/-- Default search parameters (`useState` default: central New York City). -/
def defaultSearchParams : SearchParams := { lat := 40.7128, lng := -74.0060 }

/-- The body sent to `POST /api/v1/dss/recommend`.  The `preferences`
member is kept as an association list so that its key set is visible. -/
structure RecommendPayload where
  user_location : ℚ × ℚ
  preferences : List (String × ℚ)
  limit : ℕ
deriving DecidableEq

/-- JavaScript `x || d` on an optional numeric argument
(`customLimit || 20`): `null`/`undefined` and `0` are falsy. -/
def jsOrNat (x : Option ℕ) (d : ℕ) : ℕ :=
  match x with
  | none => d
  | some v => if v = 0 then d else v

/-- The payload object literal built by `fetchRecommendations`
(DSSContext.js): location from `searchParams`, each preference divided
by 10, and `customLimit || 20`. -/
def recommendPayload (sp : SearchParams) (p : Preferences) (customLimit : Option ℕ) :
    RecommendPayload :=
  { user_location := (sp.lat, sp.lng)
    preferences :=
      [("price_sensitivity", p.price_sensitivity / 10),
       ("comfort_priority", p.comfort_priority / 10),
       ("distance_tolerance", p.distance_tolerance / 10),
       ("view_importance", p.view_importance / 10),
       ("cleanliness_priority", p.cleanliness_priority / 10)]
    limit := jsOrNat customLimit 20 }

/-- The top-level key set of the payload object literal in
`fetchRecommendations` (in source order). -/
def recommendPayloadKeys : List String := ["user_location", "preferences", "limit"]

/-! ## Seeded criteria and influence diagram (sql seed data) -/

/-- One row of the `criteria` table. -/
structure Criterion where
  code : String
  name : String
  is_benefit : Bool
  default_weight : ℚ
deriving DecidableEq

/-- The eight criteria inserted by the seed script. -/
def criteria : List Criterion :=
  [⟨"PRICE", "Price per Night", false, 0.25⟩,
   ⟨"DISTANCE_CENTER", "Distance to City Center", false, 0.15⟩,
   ⟨"RATING_OVERALL", "Overall Rating", true, 0.20⟩,
   ⟨"RATING_CLEANLINESS", "Cleanliness Rating", true, 0.10⟩,
   ⟨"RATING_LOCATION", "Location Rating", true, 0.10⟩,
   ⟨"RATING_VALUE", "Value Rating", true, 0.10⟩,
   ⟨"ACCOMMODATES", "Accommodation Capacity", true, 0.05⟩,
   ⟨"AMENITIES_COUNT", "Amenities Count", true, 0.05⟩]

/-- One row of the `influence_nodes` table. -/
structure InfluenceNode where
  node_code : String
  node_type : String
deriving DecidableEq

/-- The eleven influence nodes inserted by the seed script. -/
def influence_nodes : List InfluenceNode :=
  [⟨"ROOT_SATISFACTION", "ROOT"⟩,
   ⟨"CONVENIENCE", "INTERMEDIATE"⟩,
   ⟨"COMFORT", "INTERMEDIATE"⟩,
   ⟨"VALUE", "INTERMEDIATE"⟩,
   ⟨"LEAF_PRICE", "LEAF"⟩,
   ⟨"LEAF_DISTANCE", "LEAF"⟩,
   ⟨"LEAF_RATING_OVERALL", "LEAF"⟩,
   ⟨"LEAF_RATING_CLEANLINESS", "LEAF"⟩,
   ⟨"LEAF_RATING_LOCATION", "LEAF"⟩,
   ⟨"LEAF_RATING_VALUE", "LEAF"⟩,
   ⟨"LEAF_AMENITIES", "LEAF"⟩]

/-- One row of the `influence_edges` table (nodes referenced by code, as
the seed script does through its `SELECT node_id ... WHERE node_code`
sub-queries). -/
structure InfluenceEdge where
  parent_code : String
  child_code : String
  weight_factor : ℚ
  criterion_mapping : Option String
deriving DecidableEq

/-- The ten influence edges inserted by the seed script. -/
def influence_edges : List InfluenceEdge :=
  [⟨"ROOT_SATISFACTION", "CONVENIENCE", 0.30, none⟩,
   ⟨"ROOT_SATISFACTION", "COMFORT", 0.40, none⟩,
   ⟨"ROOT_SATISFACTION", "VALUE", 0.30, none⟩,
   ⟨"CONVENIENCE", "LEAF_DISTANCE", 0.60, some "DISTANCE_CENTER"⟩,
   ⟨"CONVENIENCE", "LEAF_RATING_LOCATION", 0.40, some "RATING_LOCATION"⟩,
   ⟨"COMFORT", "LEAF_RATING_OVERALL", 0.40, some "RATING_OVERALL"⟩,
   ⟨"COMFORT", "LEAF_RATING_CLEANLINESS", 0.35, some "RATING_CLEANLINESS"⟩,
   ⟨"COMFORT", "LEAF_AMENITIES", 0.25, some "AMENITIES_COUNT"⟩,
   ⟨"VALUE", "LEAF_PRICE", 0.60, some "PRICE"⟩,
   ⟨"VALUE", "LEAF_RATING_VALUE", 0.40, some "RATING_VALUE"⟩]

/-- Outgoing edges of a node. -/
def outgoingEdges (code : String) : List InfluenceEdge :=
  influence_edges.filter (fun e => e.parent_code = code)

/-- Sum of the weight factors of the outgoing edges of a node. -/
def outgoingWeightSum (code : String) : ℚ :=
  (outgoingEdges code).map InfluenceEdge.weight_factor |>.sum

/-- Child codes of a node. -/
def childCodes (code : String) : List String :=
  (outgoingEdges code).map InfluenceEdge.child_code

/-- Nodes reachable from `code` in at most `fuel` edge steps (excluding
the trivial zero-step path unless a cycle returns to it). -/
def descendants : ℕ → String → List String
  | 0, _ => []
  | fuel + 1, code =>
      let cs := childCodes code
      cs ++ (cs.map (descendants fuel)).flatten

/-- Node codes of the seeded graph. -/
def nodeCodes : List String := influence_nodes.map InfluenceNode.node_code

/-- Codes of the seeded leaf nodes. -/
def leafCodes : List String :=
  (influence_nodes.filter (fun n => n.node_type = "LEAF")).map InfluenceNode.node_code

/-- Criterion references of a leaf: the `criterion_mapping_id` values on
its incoming edges. -/
def leafCriteria (leaf : String) : List String :=
  (influence_edges.filter (fun e => e.child_code = leaf)).filterMap
    InfluenceEdge.criterion_mapping

/-- Modelled from the spec: the backend Weight Resolver (spec section 4.1)
is not among the source files; its propagation is modelled from the
specification text.  With no importance overrides supplied (all
importances zero falls back to the stored edge weights, multiplier 1),
the mass assigned to a node is 1 at the root and otherwise the sum, over
its incoming edges, of the edge weight times the mass of the parent.
`fuel` bounds the recursion depth; the seeded graph has depth 2. -/
def nodeMass : ℕ → String → ℚ
  | 0, _ => 0
  | fuel + 1, code =>
      if code = "ROOT_SATISFACTION" then 1
      else
        ((influence_edges.filter (fun e => e.child_code = code)).map
          (fun e => e.weight_factor * nodeMass fuel e.parent_code)).sum

/-- Modelled from the spec: the resolved weight vector with no importance
overrides.  Every criterion-mapped edge contributes the mass of its
parent times its weight factor to the mapped criterion; the seeded graph
maps each criterion through at most one leaf edge, so an association
list suffices. -/
def resolvedWeights : List (String × ℚ) :=
  influence_edges.filterMap (fun e =>
    e.criterion_mapping.map (fun c => (c, nodeMass 3 e.parent_code * e.weight_factor)))

/-- Criterion codes that receive a resolved weight. -/
def resolvedWeightCodes : List String := resolvedWeights.map Prod.fst

/-- Criterion codes referenced by some `criterion_mapping_id` in the
seeded edge set (the criteria the leaves map to). -/
def mappedCriteria : List String :=
  influence_edges.filterMap InfluenceEdge.criterion_mapping

/-! ## Room transformation (transformRoomData) -/

/-- JavaScript `x || d` on a possibly-missing numeric field: both a
missing field and the number `0` are falsy and yield the default. -/
def jsOrQ (x : Option ℚ) (d : ℚ) : ℚ :=
  match x with
  | none => d
  | some v => if v = 0 then d else v

/-- JavaScript truthiness of a possibly-missing numeric field. -/
def falsyQ (x : Option ℚ) : Prop := x = none ∨ x = some 0

instance (x : Option ℚ) : Decidable (falsyQ x) := by
  unfold falsyQ; infer_instance

/-- Haversine angle argument `a` computed by `calculateDistance`
(DSSContext.js), in real arithmetic.  `toRad` is degree-to-radian
conversion. -/
noncomputable def haversineA (roomLat roomLng sLat sLng : ℝ) : ℝ :=
  let toRad : ℝ → ℝ := fun deg => deg * Real.pi / 180
  let dLat := toRad (roomLat - sLat)
  let dLng := toRad (roomLng - sLng)
  Real.sin (dLat / 2) * Real.sin (dLat / 2) +
    Real.cos (toRad sLat) * Real.cos (toRad roomLat) *
      Real.sin (dLng / 2) * Real.sin (dLng / 2)

/-- JavaScript `Math.atan2` restricted to the arguments the code can
produce (both coordinates non-negative, being square roots); the general
definition by quadrant, with `atan2 0 0 = 0` as in IEEE `atan2(+0, +0)`. -/
noncomputable def atan2 (y x : ℝ) : ℝ :=
  if 0 < x then Real.arctan (y / x)
  else if x < 0 then
    if 0 ≤ y then Real.arctan (y / x) + Real.pi else Real.arctan (y / x) - Real.pi
  else
    if 0 < y then Real.pi / 2 else if y < 0 then -(Real.pi / 2) else 0

/-- Rounding to two decimal places (`parseFloat(distance.toFixed(2))`),
in real arithmetic: round half away from zero is irrelevant for the
claims proved here, so the standard `round` is used. -/
noncomputable def round2 (x : ℝ) : ℝ := (round (100 * x) : ℤ) / 100

/-- The great-circle distance (km) computed by `calculateDistance` before
rounding: `R * c` with `R = 6371` and
`c = 2 * atan2 (sqrt a) (sqrt (1 - a))`. -/
noncomputable def haversineKm (roomLat roomLng sLat sLng : ℝ) : ℝ :=
  6371 * (2 * atan2 (Real.sqrt (haversineA roomLat roomLng sLat sLng))
    (Real.sqrt (1 - haversineA roomLat roomLng sLat sLng)))

/-- The `calculateDistance` helper of DSSContext.js: `null` when any of
the four coordinates is falsy (the guard
`!roomLat || !roomLng || !searchParams.lat || !searchParams.lng`),
otherwise the Haversine distance in km rounded to two decimals.
Coordinates are modelled as rationals (JavaScript numbers), cast to ℝ
for the trigonometry. -/
noncomputable def calculateDistance (sp : SearchParams) (roomLat roomLng : Option ℚ) :
    Option ℝ :=
  if falsyQ roomLat ∨ falsyQ roomLng ∨ sp.lat = 0 ∨ sp.lng = 0 then none
  else
    some (round2 (haversineKm ((roomLat.getD 0 : ℚ) : ℝ) ((roomLng.getD 0 : ℚ) : ℝ)
      (sp.lat : ℝ) (sp.lng : ℝ)))

/-- The raw room record used by `transformRoomData`: the code first
resolves `backendRoom.room || backendRoom`, i.e. the nested `room`
object when present, else the top-level object itself; this structure is
that resolved record. -/
structure RawRoom where
  room_id : ℕ
  name : Option String
  price : ℚ
  review_scores_rating : Option ℚ
  number_of_reviews : Option ℕ
  latitude : Option ℚ
  longitude : Option ℚ
deriving DecidableEq

/-- A ranked-result entry as received by `transformRoomData`:
the resolved raw room plus the DSS fields read off the wrapper. -/
structure BackendRoom where
  room : RawRoom
  topsis_score : Option ℚ
  explanation : Option String
deriving DecidableEq

/-- The transformed room object (the fields the claims are about). -/
structure Room where
  id : ℕ
  price : ℚ
  rating : ℚ
  reviews : ℕ
  distance : Option ℝ
  topsis_score : ℚ
  explanation : String
deriving Inhabited

/-- The `transformRoomData` helper of DSSContext.js (fields relevant to
the claims): falsy ratings become 4.5, falsy review counts 0, falsy
TOPSIS scores 0.75, missing explanations the string shown by the UI. -/
noncomputable def transformRoomData (sp : SearchParams) (b : BackendRoom) : Room :=
  { id := b.room.room_id
    price := b.room.price
    rating := jsOrQ b.room.review_scores_rating 4.5
    reviews := jsOrNat b.room.number_of_reviews 0
    distance := calculateDistance sp b.room.latitude b.room.longitude
    topsis_score := jsOrQ b.topsis_score 0.75
    explanation := b.explanation.getD "Good match" }

/-! ## The fallback ranking path and fetchRecommendations -/

/-- The score the fallback branch of `fetchRecommendations` assigns to
the room at position `i` of the simple-search response:
`0.75 - (index * 0.02)`. -/
def fallbackScore (i : ℕ) : ℚ := 0.75 - (i : ℚ) * 0.02

/-- The transformed TOPSIS scores of the fallback ranking for an
`n`-room simple-search response: each assigned score passes through
`transformRoomData`, i.e. through `jsOrQ · 0.75`. -/
def fallbackScores (n : ℕ) : List ℚ :=
  (List.range n).map (fun i => jsOrQ (some (fallbackScore i)) 0.75)

/-- The DSS response body, as consumed by `fetchRecommendations`:
`ranked_results` may be absent (the code guards with `?.`). -/
structure DSSResponse where
  ranked_results : Option (List BackendRoom)
deriving Inhabited

/-- The value `fetchRecommendations` resolves with (the claims concern
only its `ranked_results` member).  On the success path the function
returns `response.data` itself, so the member may be absent there; both
fallback paths return an object literal with the member present. -/
structure FetchResult where
  ranked_results : Option (List BackendRoom)

/-- The `fetchRecommendations` control flow of DSSContext.js, modelled
over the outcomes of its two awaited requests: the DSS `POST` and the
simple-search `GET` used as fallback.  An `Except.error` input models the
request throwing (network failure, timeout, non-2xx status); the result
is an `Except` so that "the function throws to its caller" is
representable — the bodies of both `catch` blocks only log and set
state, so every path returns normally. -/
def fetchRecommendations (dss : Except String DSSResponse)
    (fallback : Except String (List BackendRoom)) : Except String FetchResult :=
  match dss with
  | .ok resp => .ok { ranked_results := resp.ranked_results }
  | .error _ =>
      match fallback with
      | .ok rooms => .ok { ranked_results := some rooms }
      | .error _ => .ok { ranked_results := some [] }

/-! ## Comparison selection (toggleRoomForCompare) -/

/-- A room as stored in the comparison selection: the fields
`toggleRoomForCompare` looks at (`id`) plus the rest of the record,
abstracted as a tag. -/
structure CompareRoom where
  id : ℕ
  tag : ℕ
deriving DecidableEq

/-- The `toggleRoomForCompare` state update: a room whose id is already
selected (`prev.find(r => r.id === room.id)`) is filtered out by id;
otherwise, with 3 or more selected, `prev.slice(1)` drops the oldest
selection and the new room is appended; otherwise it is appended. -/
def toggleRoomForCompare (room : CompareRoom) (prev : List CompareRoom) :
    List CompareRoom :=
  if prev.any (fun r => r.id == room.id) then prev.filter (fun r => r.id != room.id)
  else if 3 ≤ prev.length then prev.drop 1 ++ [room]
  else prev ++ [room]

/-! ## Helper lemmas -/

theorem Preferences.get_set (p : Preferences) (k k2 : PrefKey) (v : ℚ) :
    (p.set k v).get k2 = if k2 = k then v else p.get k2 := by
  cases k <;> cases k2 <;> simp [Preferences.set, Preferences.get]

theorem prefReachable_field_bounds {p : Preferences} (h : PrefReachable p) :
    ∀ k, p.get k = 5 ∨ (0 ≤ p.get k ∧ p.get k ≤ 1) := by
  induction h with
  | init => intro k; left; cases k <;> rfl
  | update k v _ h0 h1 ih =>
      intro k2
      rw [Preferences.get_set]
      split_ifs with hk
      · right; exact ⟨h0, h1⟩
      · exact ih k2
  | reset _ _ => intro k; left; cases k <;> rfl

theorem div10_unit {x : ℚ} (h : x = 5 ∨ (0 ≤ x ∧ x ≤ 1)) :
    0 ≤ x / 10 ∧ x / 10 ≤ 1 := by
  rcases h with rfl | ⟨h0, h1⟩
  · norm_num
  · constructor <;> linarith

theorem payload_pref_values_unit {p : Preferences} (hp : PrefReachable p)
    (sp : SearchParams) (lim : Option ℕ) :
    ∀ kv ∈ (recommendPayload sp p lim).preferences, 0 ≤ kv.2 ∧ kv.2 ≤ 1 := by
  intro kv hkv
  have hb := prefReachable_field_bounds hp
  simp only [recommendPayload, List.mem_cons, List.not_mem_nil, or_false] at hkv
  rcases hkv with h | h | h | h | h <;> subst h
  · exact div10_unit (hb .price_sensitivity)
  · exact div10_unit (hb .comfort_priority)
  · exact div10_unit (hb .distance_tolerance)
  · exact div10_unit (hb .view_importance)
  · exact div10_unit (hb .cleanliness_priority)

theorem arctan_nonneg_of_nonneg {t : ℝ} (ht : 0 ≤ t) : 0 ≤ Real.arctan t := by
  have h := Real.arctan_strictMono.monotone ht
  rwa [Real.arctan_zero] at h

theorem atan2_nonneg {y x : ℝ} (hy : 0 ≤ y) (hx : 0 ≤ x) : 0 ≤ atan2 y x := by
  unfold atan2
  rcases lt_or_eq_of_le hx with hx1 | hx1
  · rw [if_pos hx1]
    exact arctan_nonneg_of_nonneg (div_nonneg hy hx1.le)
  · rw [if_neg (by rw [← hx1]; exact lt_irrefl 0), if_neg (by rw [← hx1]; exact lt_irrefl 0)]
    rcases lt_or_eq_of_le hy with hy1 | hy1
    · rw [if_pos hy1]
      linarith [Real.pi_pos]
    · rw [if_neg (by rw [← hy1]; exact lt_irrefl 0), if_neg (by rw [← hy1]; exact lt_irrefl 0)]

theorem round2_nonneg {x : ℝ} (hx : 0 ≤ x) : 0 ≤ round2 x := by
  unfold round2
  have h : (0 : ℤ) ≤ round (100 * x) := by
    rw [round_eq]
    exact Int.floor_nonneg.mpr (by linarith)
  have h2 : (0 : ℝ) ≤ (round (100 * x) : ℤ) := by exact_mod_cast h
  exact div_nonneg h2 (by norm_num)

theorem haversineKm_nonneg (a b c d : ℝ) : 0 ≤ haversineKm a b c d := by
  unfold haversineKm
  have h := atan2_nonneg (Real.sqrt_nonneg (haversineA a b c d))
    (Real.sqrt_nonneg (1 - haversineA a b c d))
  linarith

theorem haversineA_self (x y : ℝ) : haversineA x y x y = 0 := by
  simp [haversineA]

theorem haversineKm_self (x y : ℝ) : haversineKm x y x y = 0 := by
  unfold haversineKm
  rw [haversineA_self]
  simp [atan2]

theorem round2_zero : round2 0 = 0 := by
  simp [round2]

/-! ## Claim theorems -/

/-- C1, counterexample: the body sent to `POST /api/v1/dss/recommend` does
not consist of the keys `preferences`, `filters`, `limit`: the payload
literal has no `filters` member and has a `user_location` member. -/
theorem recommend_payload_keys_counterexample :
    recommendPayloadKeys ≠ ["preferences", "filters", "limit"] ∧
    "user_location" ∈ recommendPayloadKeys ∧
    "filters" ∉ recommendPayloadKeys := by
  decide

/-- C1, amended: the request body consists exactly of the keys
`user_location`, `preferences` and `limit`; `preferences` maps the five
fixed client preference keys (not influence-node codes) to the stored
slider value divided by 10, each value lying in `[0, 1]` for every
preference state reachable through the slider UI. -/
theorem recommend_payload_shape (sp : SearchParams) {p : Preferences}
    (hp : PrefReachable p) (lim : Option ℕ) :
    recommendPayloadKeys = ["user_location", "preferences", "limit"] ∧
    (recommendPayload sp p lim).preferences.map Prod.fst =
      ["price_sensitivity", "comfort_priority", "distance_tolerance",
       "view_importance", "cleanliness_priority"] ∧
    ∀ kv ∈ (recommendPayload sp p lim).preferences, 0 ≤ kv.2 ∧ kv.2 ≤ 1 :=
  ⟨rfl, rfl, payload_pref_values_unit hp sp lim⟩

/-- C1 witness: the amended statement evaluated at the initial state. -/
theorem recommend_payload_shape_witness :
    recommendPayloadKeys = ["user_location", "preferences", "limit"] ∧
    (0 ≤ (5 : ℚ) / 10 ∧ (5 : ℚ) / 10 ≤ 1) :=
  ⟨(recommend_payload_shape defaultSearchParams PrefReachable.init none).1,
   (recommend_payload_shape defaultSearchParams PrefReachable.init none).2.2
     ("price_sensitivity", (5 : ℚ) / 10)
     (by simp [recommendPayload, defaultPreferences])⟩

/-- C2, counterexample: with 39 alternatives the fallback ranking contains
a negative transformed score (index 38 gets `0.75 - 38 * 0.02 < 0`), so
the scores do not lie in `[0, 1]` for every alternative count ≥ 1. -/
theorem fallback_scores_counterexample :
    jsOrQ (some (fallbackScore 38)) 0.75 ∈ fallbackScores 39 ∧
    jsOrQ (some (fallbackScore 38)) 0.75 < 0 := by
  constructor
  · simp only [fallbackScores, List.mem_map]
    exact ⟨38, by simp, rfl⟩
  · norm_num [jsOrQ, fallbackScore]

/-- C2, amended: every transformed `topsis_score` of the fallback ranking
lies in `[0, 1]` whenever the fallback response has at most 38 rooms (in
particular for the 20 the client requests); from index 38 on the assigned
score `0.75 - index * 0.02` is negative. -/
theorem fallback_scores_unit_interval (n : ℕ) (hn : n ≤ 38) :
    ∀ s ∈ fallbackScores n, 0 ≤ s ∧ s ≤ 1 := by
  intro s hs
  simp only [fallbackScores, List.mem_map, List.mem_range] at hs
  obtain ⟨i, hi, rfl⟩ := hs
  have hi37 : i ≤ 37 := by omega
  have hiq : (i : ℚ) ≤ 37 := by exact_mod_cast hi37
  have hpos : 0 < fallbackScore i := by
    unfold fallbackScore
    norm_num
    linarith
  rw [jsOrQ, if_neg hpos.ne.symm]
  refine ⟨hpos.le, ?_⟩
  unfold fallbackScore
  have hnn : 0 ≤ (i : ℚ) := Nat.cast_nonneg i
  norm_num
  linarith

/-- C2 witness: the amended statement evaluated at a one-room fallback. -/
theorem fallback_scores_unit_interval_witness :
    0 ≤ jsOrQ (some (fallbackScore 0)) 0.75 ∧
    jsOrQ (some (fallbackScore 0)) 0.75 ≤ 1 :=
  fallback_scores_unit_interval 1 (by norm_num)
    (jsOrQ (some (fallbackScore 0)) 0.75)
    (by simp [fallbackScores])

/-- C3: `fetchRecommendations` resolves normally on every path (both
`catch` blocks return object literals), and yields an object whose
`ranked_results` is the empty list both when the DSS response carries an
empty pool and when the DSS request and the fallback request both fail. -/
theorem fetchRecommendations_total_and_empty (dss : Except String DSSResponse)
    (fb : Except String (List BackendRoom)) :
    (∃ r, fetchRecommendations dss fb = Except.ok r) ∧
    (∀ resp, dss = Except.ok resp → resp.ranked_results = some [] →
      fetchRecommendations dss fb = Except.ok { ranked_results := some [] }) ∧
    (∀ e1 e2, dss = Except.error e1 → fb = Except.error e2 →
      fetchRecommendations dss fb = Except.ok { ranked_results := some [] }) := by
  refine ⟨?_, ?_, ?_⟩
  · cases dss with
    | ok resp => exact ⟨_, rfl⟩
    | error e =>
        cases fb with
        | ok rooms => exact ⟨_, rfl⟩
        | error e2 => exact ⟨_, rfl⟩
  · rintro resp rfl h
    simp [fetchRecommendations, h]
  · rintro e1 e2 rfl rfl
    rfl

/-- C3 witness: both requests failing yields an empty ranked list. -/
theorem fetchRecommendations_total_and_empty_witness :
    fetchRecommendations (Except.error "timeout") (Except.error "timeout") =
      Except.ok { ranked_results := some [] } :=
  (fetchRecommendations_total_and_empty (Except.error "timeout")
    (Except.error "timeout")).2.2 "timeout" "timeout" rfl rfl

/-- C4: in the seeded influence graph, every node with outgoing edges has
edge weight factors summing to 1.0 within 1e-6 (ROOT_SATISFACTION,
CONVENIENCE, COMFORT and VALUE; the leaves have no outgoing edges). -/
theorem influence_edge_weight_sums_unit :
    ∀ n ∈ influence_nodes, outgoingEdges n.node_code ≠ [] →
      |outgoingWeightSum n.node_code - 1| ≤ 1 / 1000000 := by
  have hroot : outgoingWeightSum "ROOT_SATISFACTION" = 1 := by
    simp [outgoingWeightSum, outgoingEdges, influence_edges]
    norm_num
  have hconv : outgoingWeightSum "CONVENIENCE" = 1 := by
    simp [outgoingWeightSum, outgoingEdges, influence_edges]
    norm_num
  have hcomf : outgoingWeightSum "COMFORT" = 1 := by
    simp [outgoingWeightSum, outgoingEdges, influence_edges]
    norm_num
  have hval : outgoingWeightSum "VALUE" = 1 := by
    simp [outgoingWeightSum, outgoingEdges, influence_edges]
    norm_num
  intro n hn hne
  fin_cases hn
  · rw [hroot]; norm_num
  · rw [hconv]; norm_num
  · rw [hcomf]; norm_num
  · rw [hval]; norm_num
  all_goals exact absurd (by simp [outgoingEdges, influence_edges]) hne

/-- C4 witness: the root node evaluated concretely. -/
theorem influence_edge_weight_sums_unit_witness :
    |outgoingWeightSum "ROOT_SATISFACTION" - 1| ≤ 1 / 1000000 :=
  influence_edge_weight_sums_unit ⟨"ROOT_SATISFACTION", "ROOT"⟩ (by decide)
    (by decide)

/-- C5, counterexample: ACCOMMODATES is a registered criterion but no leaf
edge maps to it, so default propagation defines no weight for it — the
resolved vector covers 7, not all 8, registered criteria. -/
theorem resolved_weights_counterexample :
    "ACCOMMODATES" ∈ criteria.map Criterion.code ∧
    resolvedWeights.lookup "ACCOMMODATES" = none := by
  constructor
  · decide
  · simp [resolvedWeights, nodeMass, influence_edges, List.lookup]

/-- C5, amended: propagating mass 1.0 from the root with the stored edge
weights yields weights summing to exactly 1 and matching the reference
values (PRICE 0.18, DISTANCE_CENTER 0.18, RATING_LOCATION 0.12,
RATING_OVERALL 0.16, RATING_CLEANLINESS 0.14, AMENITIES_COUNT 0.10,
RATING_VALUE 0.12), with a weight defined for exactly the 7 leaf-mapped
criteria — every registered criterion except ACCOMMODATES. -/
theorem resolved_weights_reference :
    (resolvedWeights.map Prod.snd).sum = 1 ∧
    resolvedWeights.lookup "PRICE" = some 0.18 ∧
    resolvedWeights.lookup "DISTANCE_CENTER" = some 0.18 ∧
    resolvedWeights.lookup "RATING_LOCATION" = some 0.12 ∧
    resolvedWeights.lookup "RATING_OVERALL" = some 0.16 ∧
    resolvedWeights.lookup "RATING_CLEANLINESS" = some 0.14 ∧
    resolvedWeights.lookup "AMENITIES_COUNT" = some 0.10 ∧
    resolvedWeights.lookup "RATING_VALUE" = some 0.12 ∧
    resolvedWeightCodes = ["DISTANCE_CENTER", "RATING_LOCATION",
      "RATING_OVERALL", "RATING_CLEANLINESS", "AMENITIES_COUNT",
      "PRICE", "RATING_VALUE"] := by
  refine ⟨?_, ?_, ?_, ?_, ?_, ?_, ?_, ?_, ?_⟩ <;>
    first
      | (simp [resolvedWeights, resolvedWeightCodes, nodeMass, influence_edges,
          List.lookup]; norm_num)
      | (simp [resolvedWeights, resolvedWeightCodes, nodeMass, influence_edges,
          List.lookup])

/-- C6, counterexample: the leaf-to-criterion mapping does not cover the
Criteria Registry — ACCOMMODATES is registered but unmapped. -/
theorem influence_leaf_coverage_counterexample :
    "ACCOMMODATES" ∈ criteria.map Criterion.code ∧
    "ACCOMMODATES" ∉ mappedCriteria := by
  decide

/-- C6, amended: the seeded graph is acyclic and connected from the root
to every leaf, every leaf references exactly one criterion, distinct
leaves reference distinct criteria, and the mapping covers every
registered criterion except ACCOMMODATES. -/
theorem influence_graph_structure :
    (∀ c ∈ nodeCodes, c ∉ descendants 12 c) ∧
    (∀ l ∈ leafCodes, l ∈ descendants 12 "ROOT_SATISFACTION") ∧
    (∀ l ∈ leafCodes, (leafCriteria l).length = 1) ∧
    mappedCriteria.Nodup ∧
    (∀ c ∈ criteria.map Criterion.code, c ≠ "ACCOMMODATES" →
      c ∈ mappedCriteria) := by
  refine ⟨?_, ?_, ?_, ?_, ?_⟩ <;> decide

/-- C6 witness: concrete instances of each conjunct. -/
theorem influence_graph_structure_witness :
    "ROOT_SATISFACTION" ∉ descendants 12 "ROOT_SATISFACTION" ∧
    "LEAF_PRICE" ∈ descendants 12 "ROOT_SATISFACTION" ∧
    (leafCriteria "LEAF_PRICE").length = 1 ∧
    "PRICE" ∈ mappedCriteria :=
  ⟨influence_graph_structure.1 "ROOT_SATISFACTION" (by decide),
   influence_graph_structure.2.1 "LEAF_PRICE" (by decide),
   influence_graph_structure.2.2.1 "LEAF_PRICE" (by decide),
   influence_graph_structure.2.2.2.2 "PRICE" (by decide) (by decide)⟩

/-- C7: for every preference state reachable through the slider UI, each
importance value placed in the `preferences` member of the recommend
payload (the stored value divided by 10) lies in `[0, 1]`. -/
theorem slider_payload_preferences_unit {p : Preferences}
    (hp : PrefReachable p) (sp : SearchParams) (lim : Option ℕ) :
    ∀ kv ∈ (recommendPayload sp p lim).preferences, 0 ≤ kv.2 ∧ kv.2 ≤ 1 :=
  payload_pref_values_unit hp sp lim

/-- C7 witness: the initial state sends 5 / 10 = 0.5 for each key. -/
theorem slider_payload_preferences_unit_witness :
    0 ≤ (5 : ℚ) / 10 ∧ (5 : ℚ) / 10 ≤ 1 :=
  slider_payload_preferences_unit PrefReachable.init defaultSearchParams none
    ("price_sensitivity", (5 : ℚ) / 10)
    (by simp [recommendPayload, defaultPreferences])

/-- C8: `transformRoomData` substitutes 0.75 for a falsy `topsis_score`
and 4.5 for a falsy `review_scores_rating`; in particular a score of
exactly 0 is displayed as 0.75, not 0. -/
theorem transformRoomData_falsy_defaults (sp : SearchParams) (b : BackendRoom) :
    (falsyQ b.topsis_score → (transformRoomData sp b).topsis_score = 0.75) ∧
    (falsyQ b.room.review_scores_rating →
      (transformRoomData sp b).rating = 4.5) ∧
    (b.topsis_score = some 0 → (transformRoomData sp b).topsis_score = 0.75) := by
  refine ⟨?_, ?_, ?_⟩
  · rintro (h | h) <;> simp [transformRoomData, jsOrQ, h]
  · rintro (h | h) <;> simp [transformRoomData, jsOrQ, h]
  · intro h
    simp [transformRoomData, jsOrQ, h]

/-- C8 witness: a ranked result carrying `topsis_score` exactly 0. -/
theorem transformRoomData_falsy_defaults_witness :
    (transformRoomData defaultSearchParams
      ⟨⟨1, none, 100, some 4, none, none, none⟩, some 0, none⟩).topsis_score =
      0.75 :=
  (transformRoomData_falsy_defaults defaultSearchParams
    ⟨⟨1, none, 100, some 4, none, none, none⟩, some 0, none⟩).2.2 rfl

/-- C9: `toggleRoomForCompare` keeps the selection at three rooms at most:
an already-selected id is removed, a new room with three selected drops
the oldest selection and is appended, and a new room otherwise is
appended. -/
theorem toggleRoomForCompare_spec (room : CompareRoom) (prev : List CompareRoom) :
    (prev.length ≤ 3 → (toggleRoomForCompare room prev).length ≤ 3) ∧
    ((∃ r ∈ prev, r.id = room.id) →
      toggleRoomForCompare room prev = prev.filter (fun r => r.id != room.id)) ∧
    ((∀ r ∈ prev, r.id ≠ room.id) → 3 ≤ prev.length →
      toggleRoomForCompare room prev = prev.drop 1 ++ [room]) ∧
    ((∀ r ∈ prev, r.id ≠ room.id) → prev.length < 3 →
      toggleRoomForCompare room prev = prev ++ [room]) := by
  have hany : prev.any (fun r => r.id == room.id) = true ↔
      ∃ r ∈ prev, r.id = room.id := by
    simp [List.any_eq_true]
  refine ⟨?_, ?_, ?_, ?_⟩
  · intro h3
    unfold toggleRoomForCompare
    split_ifs with h1 h2
    · exact le_trans (List.length_filter_le _ _) h3
    · simp only [List.length_append, List.length_drop, List.length_singleton]
      omega
    · simp only [List.length_append, List.length_singleton]
      omega
  · intro hex
    unfold toggleRoomForCompare
    rw [if_pos (hany.mpr hex)]
  · intro hall h3
    unfold toggleRoomForCompare
    rw [if_neg, if_pos h3]
    intro h
    obtain ⟨r, hr, hid⟩ := hany.mp h
    exact hall r hr hid
  · intro hall h3
    unfold toggleRoomForCompare
    rw [if_neg, if_neg (by omega)]
    intro h
    obtain ⟨r, hr, hid⟩ := hany.mp h
    exact hall r hr hid

/-- C9 witness: toggling a fourth room drops the oldest selection. -/
theorem toggleRoomForCompare_spec_witness :
    toggleRoomForCompare ⟨4, 0⟩ [⟨1, 0⟩, ⟨2, 0⟩, ⟨3, 0⟩] =
      [⟨2, 0⟩, ⟨3, 0⟩, ⟨4, 0⟩] := by
  have h := (toggleRoomForCompare_spec ⟨4, 0⟩ [⟨1, 0⟩, ⟨2, 0⟩, ⟨3, 0⟩]).2.2.1
    (by decide) (by decide)
  simpa using h

/-- C10: `calculateDistance` returns null exactly when one of the four
coordinates is falsy (the number 0 included), and otherwise a
non-negative number equal to the Haversine great-circle distance in km
rounded to two decimals; the computation is total (it never divides by
zero or throws — the only division is by the constants 2, 180 and 100,
and `atan2` is defined for all arguments). -/
theorem calculateDistance_safe (sp : SearchParams) (roomLat roomLng : Option ℚ) :
    (calculateDistance sp roomLat roomLng = none ↔
      falsyQ roomLat ∨ falsyQ roomLng ∨ sp.lat = 0 ∨ sp.lng = 0) ∧
    ∀ d : ℝ, calculateDistance sp roomLat roomLng = some d →
      0 ≤ d ∧ d = round2 (haversineKm ((roomLat.getD 0 : ℚ) : ℝ)
        ((roomLng.getD 0 : ℚ) : ℝ) ((sp.lat : ℚ) : ℝ) ((sp.lng : ℚ) : ℝ)) := by
  constructor
  · unfold calculateDistance
    split_ifs with h
    · simp [h]
    · simp [h]
  · intro d hd
    unfold calculateDistance at hd
    split_ifs at hd with h
    all_goals
      have hd2 := Option.some.inj hd
      refine ⟨?_, hd2.symm⟩
      rw [← hd2]
      exact round2_nonneg (haversineKm_nonneg _ _ _ _)

/-- C10 witness: coincident non-falsy coordinates yield distance 0. -/
theorem calculateDistance_safe_witness :
    0 ≤ (0 : ℝ) ∧ (0 : ℝ) = round2 (haversineKm (((some (1 : ℚ)).getD 0 : ℚ) : ℝ)
      (((some (1 : ℚ)).getD 0 : ℚ) : ℝ) (((1 : ℚ) : ℚ) : ℝ) (((1 : ℚ) : ℚ) : ℝ)) := by
  refine (calculateDistance_safe ⟨1, 1⟩ (some 1) (some 1)).2 0 ?_
  unfold calculateDistance
  rw [if_neg (by simp [falsyQ])]
  simp only [Option.getD_some]
  rw [haversineKm_self, round2_zero]

end BnB
